import Mathlib

/-!
Verification of the dataset-preparation orchestration layer of the GLM
repository (`data_utils/__init__.py`): `should_split`, `supported_corpus`,
`get_dataset` and the wrapping/splitting logic of `make_dataset`.

The module's collaborators (`corpora.NAMED_CORPORA`, `exists_lazy`,
`LazyWriter.get_len_path`, the dataset classes) live outside this module and
are modelled as an abstract environment `Env` of capabilities; the control
flow of `get_dataset` and `make_dataset` itself is embedded faithfully,
recording every I/O-performing step (writer creation, corpus build, poll
wait, reader opening) in an explicit action trace.  Python floats in split
proportions are modelled as exact rationals.
-/

namespace GLM

/-- Which reader base class a registered corpus class derives from:
`issubclass(dataset, corpora.PromptReader)` / `issubclass(dataset,
corpora.KeyReader)` / neither. -/
inductive CorpusShape where
  | promptReader
  | keyReader
  | other
deriving DecidableEq, Repr

/-- The external capabilities consumed by `get_dataset`
(`data_utils/__init__.py`): the corpus registry `corpora.NAMED_CORPORA`
(names), the shape and `PATH` of each registered corpus class, the
filesystem probes `exists_lazy(path, data_type)` and
`os.path.exists(LazyWriter.get_len_path(path, data_type))`, and the
process's distributed rank `torch.distributed.get_rank()`.  These live in
modules outside the embedded file and are treated as an abstract snapshot
of the world at call time. -/
structure Env where
  registry : List String
  shape : String → CorpusShape
  pathOf : String → String
  existsLazy : String → String → Bool
  lenPathExists : String → String → Bool
  rank : Nat

/-- Configuration of one `LazyLoader(path, data_type=tag, map_fn, mem_map=True,
is_array=...)` call; `hasMapFn` records whether `map_fn` is the
`tolist` function (when `pre_tokenize`) or `None`. -/
structure LoaderCfg where
  path : String
  tag : String
  isArray : Bool
  hasMapFn : Bool
deriving DecidableEq, Repr

/-- One observable I/O-performing step of `get_dataset`. -/
inductive Action where
  | openWriter (path tag : String) (isArray : Bool)
  | build (name : String)
  | closeWriter (path tag : String)
  | poll (path tag : String)
  | openLoader (cfg : LoaderCfg)
deriving DecidableEq, Repr

/-- The record view constructed by `get_dataset`:
`corpora.PromptDataset(prompt_loader=…, text_loader=…, to_tokenize=…)` or
`corpora.KeyDataset(mask_loader=…, text_loader=…, to_tokenize=…)`. -/
inductive DatasetView where
  | promptDataset (prompt_loader text_loader : LoaderCfg) (toTokenize : Bool)
  | keyDataset (mask_loader text_loader : LoaderCfg) (toTokenize : Bool)
deriving DecidableEq, Repr

/-- The `to_tokenize` field of the constructed view. -/
def DatasetView.toTokenize : DatasetView → Bool
  | .promptDataset _ _ t => t
  | .keyDataset _ _ t => t

/-- The two loaders the view joins. -/
def DatasetView.loaders : DatasetView → List LoaderCfg
  | .promptDataset p t _ => [p, t]
  | .keyDataset m t _ => [m, t]

/-- Outcome of a `get_dataset` call: a normal return (`ok`, possibly `none`
since the Python function can fall through without a `return`), an
indefinitely blocking poll loop (`blocked` — the environment snapshot never
satisfies the polled condition), or the `NotImplementedError` raise. -/
inductive GetResult where
  | ok (v : Option DatasetView)
  | blocked
  | notImplementedError (name : String)
deriving DecidableEq, Repr

/-- Embeds `supported_corpus(corpus_name)`: `corpus_name in corpora.NAMED_CORPORA`. -/
def supported_corpus (env : Env) (corpus_name : String) : Bool :=
  env.registry.contains corpus_name

/-- Embeds `get_dataset(name, tokenizer, pre_tokenize)` from
`data_utils/__init__.py`, lines 52–105, with its I/O steps recorded in
order.  The rank-0 debug printing block (lines 77–83) is pure logging and
is omitted.  Note that in the non-rank-0 arm the Python `while` loop polls
`os.path.exists(LazyWriter.get_len_path(path, data_type='prompt'))`
(respectively `'mask'` in the key-reader branch) — a single stream's
length-index path; on a static environment snapshot the loop either exits
at once or never. -/
def get_dataset (env : Env) (name : String) (pre_tokenize : Bool) :
    GetResult × List Action :=
  if supported_corpus env name then
    let path := env.pathOf name
    if env.shape name = .promptReader then
      let loaders : List Action :=
        [.openLoader ⟨path, "prompt", pre_tokenize, pre_tokenize⟩,
         .openLoader ⟨path, "text", pre_tokenize, pre_tokenize⟩]
      let view : DatasetView :=
        .promptDataset ⟨path, "prompt", pre_tokenize, pre_tokenize⟩
          ⟨path, "text", pre_tokenize, pre_tokenize⟩ (!pre_tokenize)
      if !(env.existsLazy path "prompt" && env.existsLazy path "text") then
        if env.rank = 0 then
          (.ok (some view),
            [.openWriter path "prompt" pre_tokenize,
             .openWriter path "text" pre_tokenize,
             .build name,
             .closeWriter path "prompt",
             .closeWriter path "text"] ++ loaders)
        else if env.lenPathExists path "prompt" then
          (.ok (some view), .poll path "prompt" :: loaders)
        else
          (.blocked, [.poll path "prompt"])
      else
        (.ok (some view), loaders)
    else if env.shape name = .keyReader then
      let loaders : List Action :=
        [.openLoader ⟨path, "mask", true, pre_tokenize⟩,
         .openLoader ⟨path, "text", pre_tokenize, pre_tokenize⟩]
      let view : DatasetView :=
        .keyDataset ⟨path, "mask", true, pre_tokenize⟩
          ⟨path, "text", pre_tokenize, pre_tokenize⟩ (!pre_tokenize)
      if !(env.existsLazy path "text" && env.existsLazy path "mask") then
        if env.rank = 0 then
          (.ok (some view),
            [.openWriter path "text" pre_tokenize,
             .openWriter path "mask" true,
             .build name,
             .closeWriter path "mask",
             .closeWriter path "text"] ++ loaders)
        else if env.lenPathExists path "mask" then
          (.ok (some view), .poll path "mask" :: loaders)
        else
          (.blocked, [.poll path "mask"])
      else
        (.ok (some view), loaders)
    else
      (.ok none, [])
  else
    (.notImplementedError name, [])

/-- Python's `max` over a nonempty list (Python raises on `[]`; the
embedding totalizes with `0`, and no claim touches the empty list). -/
def maxQ : List ℚ → ℚ
  | [] => 0
  | [x] => x
  | x :: y :: xs => max x (maxQ (y :: xs))

/-- Python's `sum`. -/
def sumQ (l : List ℚ) : ℚ := l.foldl (· + ·) 0

/-- Embeds `should_split(split)`: `max(split) / sum(split) != 1.`
(`data_utils/__init__.py`, lines 35–44).  Exact rational arithmetic models
the Python float arithmetic. -/
def should_split (split : List ℚ) : Bool :=
  decide (maxQ split / sumQ split ≠ 1)

/-- The split decision of `make_dataset` (lines 117–118 and 143): the
proportions default to `[1.]` when `None`, and the split path
(`split_ds`, shuffling, test-data dumping) is entered iff
`should_split(split)`; no other inspection of the proportions happens
before that. -/
def make_dataset_splits (split : Option (List ℚ)) : Bool :=
  should_split (split.getD [1])

/-- The framing wrapper chosen by `wrap_dataset` inside `make_dataset`
(lines 128–141), with the constructor argument each branch passes:
`presplit_sentences` for `BertSentencepairDataset`, `sample_across_doc`
for `XLDataset` / `GPT2Dataset` / `BlockDataset`. -/
inductive WrappedDataset where
  | bert (presplit_sentences : Bool)
  | xl (sample_across_doc : Bool)
  | gpt2 (sample_across_doc : Bool)
  | block (sample_across_doc : Bool)
  | plain
deriving DecidableEq, Repr

/-- Embeds `wrap_dataset(dataset)` from `make_dataset` (lines 128–141):
dispatch on `ds_type.lower()`.  The parameter `ds_type_lower` is the
already-lowercased dataset-type string (the source lowercases `ds_type`
at each comparison); `presplit_sentences` is
`kwargs['presplit_sentences'] if 'presplit_sentences' in kwargs else
False`; the `gpt-xl` branch runs `assert pre_tokenize` first, modelled as
an error result. -/
def wrap_dataset (ds_type_lower : String)
    (sample_one_document pre_tokenize presplit_sentences : Bool) :
    Except String WrappedDataset :=
  if ds_type_lower = "bert" then
    .ok (.bert presplit_sentences)
  else if ds_type_lower = "gpt-xl" then
    if pre_tokenize then .ok (.xl (!sample_one_document))
    else .error "assert pre_tokenize"
  else if ds_type_lower = "gpt2" then
    .ok (.gpt2 (!sample_one_document))
  else if ds_type_lower = "block" then
    .ok (.block (!sample_one_document))
  else
    .ok .plain

/-! ## Concrete environments used as witnesses -/

/-- An environment with an empty corpus registry. -/
def envEmpty : Env :=
  { registry := []
    shape := fun _ => .other
    pathOf := fun n => n
    existsLazy := fun _ _ => false
    lenPathExists := fun _ _ => false
    rank := 0 }

/-- A rank-0 environment with one prompt-shaped corpus and no cached store. -/
def envBuild : Env :=
  { registry := ["wiki"]
    shape := fun _ => .promptReader
    pathOf := fun _ => "/data/wiki"
    existsLazy := fun _ _ => false
    lenPathExists := fun _ _ => false
    rank := 0 }

/-- A rank-0 environment with one key-shaped corpus and no cached store. -/
def envKey : Env :=
  { registry := ["bookcorpus"]
    shape := fun _ => .keyReader
    pathOf := fun _ => "/data/books"
    existsLazy := fun _ _ => false
    lenPathExists := fun _ _ => false
    rank := 0 }

/-- A registered corpus whose class derives from neither reader base class. -/
def envOther : Env :=
  { registry := ["raw"]
    shape := fun _ => .other
    pathOf := fun _ => "/data/raw"
    existsLazy := fun _ _ => false
    lenPathExists := fun _ _ => false
    rank := 0 }

/-- A rank-1 environment mid-build: the builder has closed the prompt
writer (its length index exists) but not yet the text writer (the text
stream's length index is still absent). -/
def envMidBuild : Env :=
  { registry := ["wiki"]
    shape := fun _ => .promptReader
    pathOf := fun _ => "/data/wiki"
    existsLazy := fun _ tag => tag == "prompt"
    lenPathExists := fun _ tag => tag == "prompt"
    rank := 1 }

/-! ## Claims -/

/-- C2: `should_split(proportions)` is a pure predicate that returns true
if and only if `max(proportions)/sum(proportions)` is not equal to `1`;
in particular `should_split [10,0,0] = false` and
`should_split [1, 0.1, 0.2] = true`. -/
theorem C2_should_split_spec :
    (∀ l : List ℚ, should_split l = true ↔ maxQ l / sumQ l ≠ 1) ∧
    should_split [10, 0, 0] = false ∧
    should_split [1, 1/10, 2/10] = true := by
  refine ⟨fun l => by simp [should_split], ?_, ?_⟩ <;>
    norm_num [should_split, maxQ, sumQ, List.foldl, max_def]

/-- Witness for C2 at the concrete proportions `[5, 5]`. -/
theorem C2_should_split_spec_witness : should_split [(5 : ℚ), 5] = true :=
  (C2_should_split_spec.1 [5, 5]).mpr (by norm_num [maxQ, sumQ])

/-- C3 counterexample: `[-1, -2]` has only negative entries and a negative
sum, yet the split path does not reject it — `should_split` evaluates the
ratio test (returning `true`, since `(-1)/(-3) ≠ 1`) and `make_dataset`
proceeds straight to `split_ds`; no validation error exists anywhere on
the path. -/
theorem C3_counterexample :
    make_dataset_splits (some [-1, -2]) = true ∧
    sumQ [(-1 : ℚ), -2] < 0 ∧ ((-1 : ℚ) < 0 ∧ (-2 : ℚ) < 0) := by
  refine ⟨?_, ?_, ?_, ?_⟩ <;>
    norm_num [make_dataset_splits, should_split, maxQ, sumQ, List.foldl, max_def]

/-- C3 (amended): the split path performs no validation of the
proportions at all.  For every proportions list (negative entries and
non-positive sums included), `make_dataset` enters the split path exactly
when `max/sum ≠ 1`; lists with negative entries or negative sum flow into
`split_ds` unchecked rather than being rejected with a validation
error. -/
theorem C3_no_validation (l : List ℚ) (h : maxQ l / sumQ l ≠ 1) :
    make_dataset_splits (some l) = true := by
  simp [make_dataset_splits, should_split, h]

/-- Witness for C3 (amended) at the all-negative proportions `[-1, -2]`. -/
theorem C3_no_validation_witness :
    maxQ [(-1 : ℚ), -2] / sumQ [(-1 : ℚ), -2] ≠ 1 ∧
    make_dataset_splits (some [-1, -2]) = true :=
  ⟨by norm_num [maxQ, sumQ, List.foldl, max_def],
   C3_no_validation [-1, -2] (by norm_num [maxQ, sumQ, List.foldl, max_def])⟩

/-- C8: for the `gpt2`, `gpt-xl` and `block` dataset types,
`make_dataset`'s wrapper builds the framing transform with
`sample_across_doc = not sample_one_document`, while the `bert` type is
built with the caller's `presplit_sentences` flag instead (the `gpt-xl`
branch additionally asserts `pre_tokenize`). -/
theorem C8_wrap_dispatch (sample_one_document pre_tokenize presplit_sentences : Bool)
    (hp : pre_tokenize = true) :
    wrap_dataset "gpt2" sample_one_document pre_tokenize presplit_sentences =
      .ok (.gpt2 (!sample_one_document)) ∧
    wrap_dataset "gpt-xl" sample_one_document pre_tokenize presplit_sentences =
      .ok (.xl (!sample_one_document)) ∧
    wrap_dataset "block" sample_one_document pre_tokenize presplit_sentences =
      .ok (.block (!sample_one_document)) ∧
    wrap_dataset "bert" sample_one_document pre_tokenize presplit_sentences =
      .ok (.bert presplit_sentences) := by
  subst hp
  exact ⟨rfl, rfl, rfl, rfl⟩

/-- Witness for C8 with `sample_one_document = false`,
`pre_tokenize = true`, `presplit_sentences = true`. -/
theorem C8_wrap_dispatch_witness :
    (true : Bool) = true ∧
    (wrap_dataset "gpt2" false true true = .ok (.gpt2 true) ∧
     wrap_dataset "gpt-xl" false true true = .ok (.xl true) ∧
     wrap_dataset "block" false true true = .ok (.block true) ∧
     wrap_dataset "bert" false true true = .ok (.bert true)) :=
  ⟨rfl, C8_wrap_dispatch false true true rfl⟩

/-- C4: for every corpus name not present in the corpus registry,
`get_dataset` raises `NotImplementedError` before performing any I/O —
no store existence check, writer creation or reader opening appears in
the trace. -/
theorem C4_unregistered_raises (env : Env) (name : String) (pre : Bool)
    (h : supported_corpus env name = false) :
    get_dataset env name pre = (.notImplementedError name, []) := by
  simp [get_dataset, h]

/-- Witness for C4 on the empty registry and the name `openwebtext`. -/
theorem C4_unregistered_raises_witness :
    supported_corpus envEmpty "openwebtext" = false ∧
    get_dataset envEmpty "openwebtext" false = (.notImplementedError "openwebtext", []) :=
  ⟨rfl, C4_unregistered_raises envEmpty "openwebtext" false rfl⟩

/-- C9: if a corpus name is registered but its class derives from neither
`PromptReader` nor `KeyReader`, `get_dataset` falls through without a
`return` statement and without raising: it returns `None`, and performs
no I/O. -/
theorem C9_fallthrough_none (env : Env) (name : String) (pre : Bool)
    (hs : supported_corpus env name = true)
    (hsh : env.shape name = .other) :
    get_dataset env name pre = (.ok none, []) := by
  simp [get_dataset, hs, hsh]

/-- Witness for C9 on a registered shape-less corpus. -/
theorem C9_fallthrough_none_witness :
    supported_corpus envOther "raw" = true ∧
    envOther.shape "raw" = .other ∧
    get_dataset envOther "raw" true = (.ok none, []) :=
  ⟨rfl, rfl, C9_fallthrough_none envOther "raw" true rfl rfl⟩

/-- C1: evaluation of `get_dataset` at the failing input.  In the
snapshot `envMidBuild` — a rank-1 participant while the builder has
finalized the prompt stream's length index but not yet the text
stream's — the wait loop (which polls only
`LazyWriter.get_len_path(path, data_type='prompt')`) exits, and the
participant proceeds to open the text stream as a reader even though the
text stream's finalized length index does not exist.  The claim states
that polling continues until every required stream's finalized index
exists, including the last-finishing stream; the code polls only the
first-closed stream, so partial multi-stream completion is observed as
readiness. -/
theorem C1_poll_ignores_text_stream :
    envMidBuild.rank ≠ 0 ∧
    envMidBuild.lenPathExists "/data/wiki" "text" = false ∧
    envMidBuild.existsLazy "/data/wiki" "text" = false ∧
    get_dataset envMidBuild "wiki" false =
      (.ok (some (.promptDataset ⟨"/data/wiki", "prompt", false, false⟩
          ⟨"/data/wiki", "text", false, false⟩ true)),
       [.poll "/data/wiki" "prompt",
        .openLoader ⟨"/data/wiki", "prompt", false, false⟩,
        .openLoader ⟨"/data/wiki", "text", false, false⟩]) := by
  refine ⟨by decide, by decide, by decide, by decide⟩

/-- C6: whenever `get_dataset` returns a dataset, the construction is
dispatched on the corpus's declared reader shape: a `PromptDataset`
joining the prompt and text streams of the corpus path when the class
derives from `PromptReader`, and a `KeyDataset` joining the mask and
text streams when it derives from `KeyReader`. -/
theorem C6_shape_dispatch (env : Env) (name : String) (pre : Bool) (v : DatasetView)
    (hok : (get_dataset env name pre).1 = .ok (some v)) :
    (env.shape name = .promptReader →
      v = .promptDataset ⟨env.pathOf name, "prompt", pre, pre⟩
            ⟨env.pathOf name, "text", pre, pre⟩ (!pre)) ∧
    (env.shape name = .keyReader →
      v = .keyDataset ⟨env.pathOf name, "mask", true, pre⟩
            ⟨env.pathOf name, "text", pre, pre⟩ (!pre)) := by
  simp only [get_dataset] at hok
  split_ifs at hok <;> simp_all

/-- Witness for C6 on a prompt-shaped corpus built at rank 0. -/
theorem C6_shape_dispatch_witness :
    (get_dataset envBuild "wiki" false).1 =
      .ok (some (.promptDataset ⟨"/data/wiki", "prompt", false, false⟩
        ⟨"/data/wiki", "text", false, false⟩ true)) ∧
    ((envBuild.shape "wiki" = .promptReader →
      DatasetView.promptDataset ⟨"/data/wiki", "prompt", false, false⟩
          ⟨"/data/wiki", "text", false, false⟩ true =
        .promptDataset ⟨envBuild.pathOf "wiki", "prompt", false, false⟩
          ⟨envBuild.pathOf "wiki", "text", false, false⟩ (!false)) ∧
     (envBuild.shape "wiki" = .keyReader →
      DatasetView.promptDataset ⟨"/data/wiki", "prompt", false, false⟩
          ⟨"/data/wiki", "text", false, false⟩ true =
        .keyDataset ⟨envBuild.pathOf "wiki", "mask", true, false⟩
          ⟨envBuild.pathOf "wiki", "text", false, false⟩ (!false))) :=
  ⟨by decide,
   C6_shape_dispatch envBuild "wiki" false
     (.promptDataset ⟨"/data/wiki", "prompt", false, false⟩
       ⟨"/data/wiki", "text", false, false⟩ true) (by decide)⟩

/-- C7: every dataset view returned by `get_dataset` defers tokenization
exactly when the streams hold raw text: its `to_tokenize` flag is
`not pre_tokenize`, and each of its loaders carries a `map_fn`
(the stored-array `tolist` conversion) exactly when `pre_tokenize` is
true. -/
theorem C7_deferred_tokenization (env : Env) (name : String) (pre : Bool) (v : DatasetView)
    (hok : (get_dataset env name pre).1 = .ok (some v)) :
    v.toTokenize = !pre ∧ ∀ cfg ∈ v.loaders, cfg.hasMapFn = pre := by
  simp only [get_dataset] at hok
  split_ifs at hok <;> simp_all <;>
    (subst hok; simp [DatasetView.toTokenize, DatasetView.loaders])

/-- Witness for C7 on a key-shaped corpus with `pre_tokenize = true`. -/
theorem C7_deferred_tokenization_witness :
    (get_dataset envKey "bookcorpus" true).1 =
      .ok (some (.keyDataset ⟨"/data/books", "mask", true, true⟩
        ⟨"/data/books", "text", true, true⟩ false)) ∧
    ((DatasetView.keyDataset ⟨"/data/books", "mask", true, true⟩
        ⟨"/data/books", "text", true, true⟩ false).toTokenize = !true ∧
     ∀ cfg ∈ (DatasetView.keyDataset ⟨"/data/books", "mask", true, true⟩
        ⟨"/data/books", "text", true, true⟩ false).loaders, cfg.hasMapFn = true) :=
  ⟨by decide,
   C7_deferred_tokenization envKey "bookcorpus" true
     (.keyDataset ⟨"/data/books", "mask", true, true⟩
       ⟨"/data/books", "text", true, true⟩ false) (by decide)⟩

/-- C5: in every execution of `get_dataset`, a `LazyWriter` is opened
only by the rank-0 process, and only when the required streams of the
dispatched shape do not already exist in finalized form; no other
participant's trace ever contains a writer opening. -/
theorem C5_writer_only_rank0 (env : Env) (name : String) (pre : Bool)
    (p t : String) (a : Bool)
    (h : Action.openWriter p t a ∈ (get_dataset env name pre).2) :
    env.rank = 0 ∧
    (env.shape name = .promptReader →
      ¬(env.existsLazy (env.pathOf name) "prompt" = true ∧
        env.existsLazy (env.pathOf name) "text" = true)) ∧
    (env.shape name = .keyReader →
      ¬(env.existsLazy (env.pathOf name) "text" = true ∧
        env.existsLazy (env.pathOf name) "mask" = true)) := by
  simp only [get_dataset] at h
  split_ifs at h <;> simp_all <;> (intro ha; simp_all)

/-- Witness for C5: at rank 0 with no finalized streams, the prompt
writer is opened and the conditions of the theorem hold. -/
theorem C5_writer_only_rank0_witness :
    Action.openWriter "/data/wiki" "prompt" false ∈ (get_dataset envBuild "wiki" false).2 ∧
    (envBuild.rank = 0 ∧
     (envBuild.shape "wiki" = .promptReader →
       ¬(envBuild.existsLazy (envBuild.pathOf "wiki") "prompt" = true ∧
         envBuild.existsLazy (envBuild.pathOf "wiki") "text" = true)) ∧
     (envBuild.shape "wiki" = .keyReader →
       ¬(envBuild.existsLazy (envBuild.pathOf "wiki") "text" = true ∧
         envBuild.existsLazy (envBuild.pathOf "wiki") "mask" = true))) :=
  ⟨by decide, C5_writer_only_rank0 envBuild "wiki" false "/data/wiki" "prompt" false (by decide)⟩

/-- C10: on a key-reader corpus, every writer or loader the trace opens
for the mask stream carries `is_array = true` regardless of
`pre_tokenize`, while every writer or loader for the text stream carries
`is_array = pre_tokenize`. -/
theorem C10_mask_always_array (env : Env) (name : String) (pre : Bool)
    (hsh : env.shape name = .keyReader) :
    (∀ p t a, Action.openWriter p t a ∈ (get_dataset env name pre).2 →
      (t = "mask" → a = true) ∧ (t = "text" → a = pre)) ∧
    (∀ cfg : LoaderCfg, Action.openLoader cfg ∈ (get_dataset env name pre).2 →
      (cfg.tag = "mask" → cfg.isArray = true) ∧ (cfg.tag = "text" → cfg.isArray = pre)) := by
  constructor
  · intro p t a h
    simp only [get_dataset] at h
    split_ifs at h <;> simp_all
    rcases h with ⟨rfl, rfl, rfl⟩ | ⟨rfl, rfl, rfl⟩ <;> simp
  · intro cfg h
    simp only [get_dataset] at h
    split_ifs at h <;> simp_all <;>
      (rcases h with rfl | rfl <;> simp)

/-- Witness for C10 on a key-shaped corpus built at rank 0 with
`pre_tokenize = false`. -/
theorem C10_mask_always_array_witness :
    envKey.shape "bookcorpus" = .keyReader ∧
    ((∀ p t a, Action.openWriter p t a ∈ (get_dataset envKey "bookcorpus" false).2 →
       (t = "mask" → a = true) ∧ (t = "text" → a = false)) ∧
     (∀ cfg : LoaderCfg, Action.openLoader cfg ∈ (get_dataset envKey "bookcorpus" false).2 →
       (cfg.tag = "mask" → cfg.isArray = true) ∧ (cfg.tag = "text" → cfg.isArray = false))) :=
  ⟨rfl, C10_mask_always_array envKey "bookcorpus" false rfl⟩

end GLM
